import Mathlib

/-!
Shallow embedding of the autopush-manager client core (TypeScript) and proofs
about it.  Bytes are modelled as `Nat`, byte arrays as `List Nat`, JavaScript
`null`/`undefined` as `Option`, and thrown exceptions as `none` / explicit
error constructors.  Each definition is translated from the named source
function; doc comments record the file and lines it embeds.
-/

namespace Autopush

/-- Embedding of removePadding from src/crypto.ts lines 352-369.  The source
first throws when every byte is zero (data.findIndex(v => v !== 0) === -1,
which is also the case for the empty array), then scans from the end skipping
zero bytes; the first non-zero byte must equal the expected padding delimiter
(2 for the last record, 1 otherwise) or the source throws; on success it
returns data.slice(0, paddingIndex), the bytes strictly before the delimiter.
A thrown error is modelled as none. -/
def removePadding (data : List Nat) (isLastRecord : Bool := true) : Option (List Nat) :=
  if data.all (fun v => v == 0) then none
  else
    let expectedPaddingByte : Nat := if isLastRecord then 2 else 1
    match data.reverse.dropWhile (fun v => v == 0) with
    | [] => none
    | b :: rest => if b ≠ expectedPaddingByte then none else some rest.reverse

/-- Result of the aes128gcm record-header split, from splitContent in
src/crypto.ts lines 624-637. -/
structure SplitContentResult where
  salt : List Nat
  recordSize : Nat
  serverPublicKey : List Nat
  encryptedContent : List Nat
deriving DecidableEq, Repr

/-- Big-endian 32-bit read, embedding DataView.getUint32(0, false) over a
4-byte slice. -/
def beU32 (bytes : List Nat) : Nat :=
  bytes.foldl (fun acc b => acc * 256 + b) 0

/-- Embedding of splitContent from src/crypto.ts lines 624-637.  The source
computes keyIdSize = new DataView(content.slice(20).buffer).getUint8(0), which
throws a RangeError exactly when fewer than 21 bytes are present (the sliced
buffer is then empty at offset 0); this throw is modelled as none.  All other
fields are built with Uint8Array.slice, which silently truncates when the
input is short, and the source performs no check that keyIdSize equals 65. -/
def splitContent (content : List Nat) : Option SplitContentResult :=
  if content.length < 21 then none
  else
    let keyIdSize := content.getD 20 0
    some { salt := content.take 16
         , recordSize := beU32 ((content.drop 16).take 4)
         , serverPublicKey := (content.drop 21).take keyIdSize
         , encryptedContent := content.drop (21 + keyIdSize) }

/-- Ack codes from ClientAckCodes in src/messages/message.ts: SUCCESS = 100,
DECRYPT_FAIL = 101, OTHER_FAIL = 102. -/
def clientAckCodeValues : List Int := [100, 101, 102]

def ClientAckCodes.SUCCESS : Int := 100

def ClientAckCodes.DECRYPT_FAIL : Int := 101

def ClientAckCodes.OTHER_FAIL : Int := 102

/-- One entry of the ack queue: channelID, version, code, as in
ClientMessageAck from src/messages/message.ts. -/
structure ClientMessageAck where
  channelID : String
  version : String
  code : Int
deriving DecidableEq, Repr

/-- The fields of a ServerNotification frame that NotificationHandler.handle
reads when building acks (src/messages/message.ts). -/
structure ServerNotification where
  channelID : String
  version : String
deriving DecidableEq, Repr

/-- Possible outcomes of subscription.handleNotification as observed by the
try/catch in NotificationHandler.handle: a normal return, a thrown JavaScript
number (typeof e === "number"), or any other thrown value. -/
inductive HandleNotificationOutcome
  | success
  | throwNum (n : Int)
  | throwOther
deriving DecidableEq, Repr

/-- Embedding of NotificationHandler.handle, src/unnamed/part_025 lines
101-136.  subKnown tells whether mediator.subscriptionHandler.get(channelID)
found a subscription; outcome is what sub.handleNotification did.  The result
is the list of entries passed to mediator.ack, in order.  The catch clause
keeps a thrown number only when Object.values(ClientAckCodes).find(v => v === e)
is non-null, and otherwise uses OTHER_FAIL. -/
def notificationHandle (subKnown : Bool) (outcome : HandleNotificationOutcome)
    (msg : ServerNotification) : List ClientMessageAck :=
  if !subKnown then
    [⟨msg.channelID, msg.version, ClientAckCodes.OTHER_FAIL⟩]
  else
    let code : Int :=
      match outcome with
      | .success => ClientAckCodes.SUCCESS
      | .throwNum n =>
          if (clientAckCodeValues.find? (fun v => v == n)).isSome then n
          else ClientAckCodes.OTHER_FAIL
      | .throwOther => ClientAckCodes.OTHER_FAIL
    [⟨msg.channelID, msg.version, code⟩]

/-- The ack code the specification prescribes for a processed notification:
OTHER_FAIL for an unknown channel, a thrown valid ack code as-is, OTHER_FAIL
for any other error, SUCCESS on normal return.  Written from the spec text to
be compared with the embedding of the handler. -/
def specAckCode (subKnown : Bool) (outcome : HandleNotificationOutcome) : Int :=
  if !subKnown then 102
  else
    match outcome with
    | .success => 100
    | .throwNum n => if n = 100 ∨ n = 101 ∨ n = 102 then n else 102
    | .throwOther => 102

/-- Subscription options, from PushSubscriptionOptions in
src/push-subscription.ts. -/
structure PushSubscriptionOptions where
  userVisibleOnly : Bool
  applicationServerKey : String
deriving DecidableEq, Repr

/-- A registry entry as SubscriptionHandler sees it: its channel id and its
options (src/subscription-handler.ts). -/
structure Subscription where
  channelID : String
  options : PushSubscriptionOptions
deriving DecidableEq, Repr

/-- Embedding of SubscriptionHandler.getByApplicationServerKey,
src/subscription-handler.ts lines 63-67: a linear find over the registry
values comparing options.applicationServerKey. -/
def getByApplicationServerKey (subs : List Subscription) (key : String) :
    Option Subscription :=
  subs.find? (fun sub => sub.options.applicationServerKey == key)

/-- The observable result of PushManager.subscribe: the two synchronous
throws, returning an existing subscription, or sending a register frame and
awaiting the handler's promise. -/
inductive SubscribeResult
  | errInvalidOptions
  | errNotInitialized
  | existing (sub : Subscription)
  | sendRegister (key : String)
deriving DecidableEq, Repr

/-- Embedding of PushManager.subscribe, src/unnamed/part_026 lines 70-94.
options is none when the caller passed a falsy value; a missing or empty
applicationServerKey is falsy in the source's !options.applicationServerKey
test.  websocketPresent models this._websocket being non-null (the
subscriptionHandler is always assigned by PushManager.create).  The checks
happen in source order, before any frame is sent. -/
def subscribe (subs : List Subscription) (websocketPresent : Bool)
    (options : Option PushSubscriptionOptions) : SubscribeResult :=
  match options with
  | none => .errInvalidOptions
  | some opts =>
    if opts.applicationServerKey = "" then .errInvalidOptions
    else if !websocketPresent then .errNotInitialized
    else
      match getByApplicationServerKey subs opts.applicationServerKey with
      | some ex => .existing ex
      | none => .sendRegister opts.applicationServerKey

/-- State touched by the hello exchange: the manager's cached uaid
(PushManager._uaid, none for JavaScript null), the registry's subscriptions,
whether reInitAllSubscriptions has been invoked, and how many
pushsubscriptionchange events have been dispatched. -/
structure ManagerState where
  uaid : Option String
  subscriptions : List Subscription
  reInitInvoked : Bool
  pushSubChangeEvents : Nat
deriving DecidableEq, Repr

/-- Embedding of PushManager.completeHello, src/unnamed/part_026 lines 56-64:
if this._uaid !== uaid, setUaid(uaid) stores the new value (the settle
timer around _helloResolve does not touch the state modelled here). -/
def completeHello (st : ManagerState) (uaid : String) : ManagerState :=
  if st.uaid = some uaid then st else { st with uaid := some uaid }

/-- Embedding of SubscriptionHandler.reInitAllSubscriptions,
src/subscription-handler.ts lines 82-97, together with the downstream effect
of each reInit: PushSubscription.reInit forwards the subscription's event
manager with the register frame, and the PushSubscription constructor
(src/unnamed/part_020 lines 559-574) dispatches exactly one
pushsubscriptionchange when an event manager is passed, so each prior
subscription accounts for one event; the originals are then destroyed and
forgotten. -/
def reInitAllSubscriptions (st : ManagerState) : ManagerState :=
  { st with reInitInvoked := true
          , pushSubChangeEvents := st.pushSubChangeEvents + st.subscriptions.length
          , subscriptions := [] }

/-- JavaScript truthiness of the uaid string: null and the empty string are
falsy. -/
def uaidTruthy : Option String → Bool
  | none => false
  | some s => s ≠ ""

/-- Embedding of HelloHandler.handle, src/unnamed/part_025 lines 18-38: it
first awaits pushManager.completeHello(message.uaid), then reads
currentUaid = pushManager.uaid and invokes reInitAllSubscriptions only when
currentUaid is truthy and differs from message.uaid.  (The PingSender
notification at the end does not touch the state modelled here.) -/
def helloHandle (st : ManagerState) (messageUaid : String) : ManagerState :=
  let st1 := completeHello st messageUaid
  if uaidTruthy st1.uaid ∧ st1.uaid ≠ some messageUaid then
    reInitAllSubscriptions st1
  else st1

/-- Mediator state for ack batching: the queue and whether
pushManager.websocket is non-null. -/
structure MediatorState where
  ackQueue : List ClientMessageAck
  websocketPresent : Bool
deriving DecidableEq, Repr

/-- An outbound ack frame, as built by AckSender.buildMessage:
messageType "ack" with the updates list. -/
structure ClientAck where
  updates : List ClientMessageAck
deriving DecidableEq, Repr

/-- Embedding of MessageMediator.sendAck, src/messages/message-mediator.ts
lines 127-143, the body of each ack-timer tick: return early when the queue
is empty; return early when no websocket is present; otherwise splice the
whole queue out and send one ack frame carrying those updates in order.
The result is the new state and the frame written to the socket, if any. -/
def sendAck (st : MediatorState) : MediatorState × Option ClientAck :=
  if st.ackQueue.isEmpty then (st, none)
  else if !st.websocketPresent then (st, none)
  else ({ st with ackQueue := [] }, some ⟨st.ackQueue⟩)

/-- Embedding of Storage.getKey, src/unnamed/part_008 lines 57-59: an empty
namespace is elided, otherwise the namespace and the key are joined with a
colon.  Every read, write and remove of a Storage instance addresses the
backend at this computed key. -/
def Storage.getKey (ns key : String) : String :=
  if ns = "" then key else ns ++ ":" ++ key

/-- Behaviour of one registered listener when invoked: return normally or
throw. -/
inductive ListenerBehavior
  | normal
  | throws
deriving DecidableEq, Repr

/-- What a call to dispatchEvent did: the indices (in registration order) of
the listeners that were invoked, and the index of the listener whose
exception escaped the dispatch loop, if any. -/
structure DispatchResult where
  invoked : List Nat
  escaped : Option Nat
deriving DecidableEq, Repr

/-- The dispatch loop of EventManager.dispatchEvent starting at listener
index i.  A JavaScript Map iterates in insertion order, so listeners run in
registration order; the loop body is a bare callback(...args) with no
try/catch, so a throwing listener ends the loop and its exception escapes. -/
def dispatchRun : Nat → List ListenerBehavior → DispatchResult
  | _, [] => ⟨[], none⟩
  | i, .normal :: rest =>
      let r := dispatchRun (i + 1) rest
      ⟨i :: r.invoked, r.escaped⟩
  | i, .throws :: _ => ⟨[i], some i⟩

/-- Embedding of EventManager.dispatchEvent, src/event-manager.ts lines
29-38: iterate the listeners registered for the event in registration order,
invoking each; the source contains no try/catch and no error logging inside
the loop. -/
def dispatchEvent (listeners : List ListenerBehavior) : DispatchResult :=
  dispatchRun 0 listeners

/-- The flags PushManager.destroy and MessageMediator.destroy act on:
the reconnect flag, whether the websocket is open, and whether the
mediator's ack interval timer is still scheduled. -/
structure SystemState where
  reconnect : Bool
  websocketPresent : Bool
  ackTimerActive : Bool
deriving DecidableEq, Repr

/-- Embedding of PushManager.destroy, src/unnamed/part_026 lines 140-143:
this.reconnect = false and this._websocket?.close().  The body contains no
call to the mediator's destroy, so the ack timer state is untouched. -/
def PushManager.destroy (st : SystemState) : SystemState :=
  { st with reconnect := false, websocketPresent := false }

/-- Embedding of MessageMediator.destroy, src/messages/message-mediator.ts
lines 59-63: clearInterval on the ack timer. -/
def MessageMediator.destroy (st : SystemState) : SystemState :=
  { st with ackTimerActive := false }

/-- The protocol side effects of UnregisterHandler.handle. -/
inductive UnregAction
  | scheduleRetryUnregister (channelID : String) (code : Int)
  | dispatchUnregistered (channelID : String)
  | removeSubscription (channelID : String)
deriving DecidableEq, Repr

/-- An inbound unregister frame: channelID and status
(src/messages/message.ts). -/
structure ServerUnregister where
  channelID : String
  status : Nat
deriving DecidableEq, Repr

/-- Embedding of UnregisterHandler.handle, src/messages/handlers/
unregister-handler.ts lines 124-157.  The switch on status has case 200
(break), case 500 (schedule a retry with the queued code, defaulting to
USER_UNSUBSCRIBED = 200, and return) and no default clause, so every other
status falls through the switch to the common path, which dispatches the
internal unregistered event (resolving matching awaitUnregister promises)
and asks the registry to remove the subscription (destroying its persisted
state).  queuedCode is unregisteringQueue.get(channelID). -/
def unregisterHandle (msg : ServerUnregister) (queuedCode : Option Int) :
    List UnregAction :=
  if msg.status = 500 then
    [.scheduleRetryUnregister msg.channelID (queuedCode.getD 200)]
  else
    [.dispatchUnregistered msg.channelID, .removeSubscription msg.channelID]

/-! Concrete evaluations of the embedded operations. -/

example : removePadding [104, 105, 2, 0, 0] true = some [104, 105] := by decide

example : removePadding [104, 105, 2, 0, 0] false = none := by decide

example : removePadding [104, 105, 1] false = some [104, 105] := by decide

example : removePadding [0, 0, 0] true = none := by decide

example : removePadding [] true = none := by decide

example : removePadding [3, 7] true = none := by decide

example : removePadding [2] true = some [] := by decide

example : splitContent (List.replicate 20 0) = none := by decide

example : splitContent (List.replicate 20 0 ++ [3]) =
    some { salt := List.replicate 16 0, recordSize := 0
         , serverPublicKey := [], encryptedContent := [] } := by decide

example : notificationHandle false .success ⟨"c", "v"⟩ = [⟨"c", "v", 102⟩] := by decide

example : notificationHandle true (.throwNum 101) ⟨"c", "v"⟩ = [⟨"c", "v", 101⟩] := by decide

example : notificationHandle true (.throwNum 205) ⟨"c", "v"⟩ = [⟨"c", "v", 102⟩] := by decide

example : notificationHandle true .throwOther ⟨"c", "v"⟩ = [⟨"c", "v", 102⟩] := by decide

example : notificationHandle true .success ⟨"c", "v"⟩ = [⟨"c", "v", 100⟩] := by decide

example : sendAck ⟨[], true⟩ = (⟨[], true⟩, none) := by decide

example : sendAck ⟨[⟨"c", "v", 100⟩], false⟩ = (⟨[⟨"c", "v", 100⟩], false⟩, none) := by decide

example : sendAck ⟨[⟨"c", "v", 100⟩, ⟨"d", "w", 101⟩], true⟩ =
    (⟨[], true⟩, some ⟨[⟨"c", "v", 100⟩, ⟨"d", "w", 101⟩]⟩) := by decide

example : Storage.getKey "" "uaid" = "uaid" := by rfl

example : Storage.getKey "abc" "endpoint" = "abc:endpoint" := by rfl

example : dispatchEvent [.normal, .normal] = ⟨[0, 1], none⟩ := by decide

example : dispatchEvent [.normal, .throws, .normal] = ⟨[0, 1], some 1⟩ := by decide

example : unregisterHandle ⟨"c", 200⟩ none =
    [.dispatchUnregistered "c", .removeSubscription "c"] := by decide

example : unregisterHandle ⟨"c", 500⟩ (some 201) =
    [.scheduleRetryUnregister "c" 201] := by decide

example : unregisterHandle ⟨"c", 404⟩ none =
    [.dispatchUnregistered "c", .removeSubscription "c"] := by decide

/-- Finding a value in the ack-code table succeeds exactly for the three
valid codes. -/
lemma find?_ackCodeValues (n : Int) :
    ((clientAckCodeValues.find? (fun v => v == n)).isSome = true) ↔
      (n = 100 ∨ n = 101 ∨ n = 102) := by
  rw [List.find?_isSome]
  constructor
  · rintro ⟨x, hx, hbeq⟩
    have hxe : x = n := by simpa using hbeq
    subst hxe
    simpa [clientAckCodeValues, eq_comm] using hx
  · rintro (h | h | h) <;> subst h
    · exact ⟨100, by simp [clientAckCodeValues], by simp⟩
    · exact ⟨101, by simp [clientAckCodeValues], by simp⟩
    · exact ⟨102, by simp [clientAckCodeValues], by simp⟩

/-- C2: every inbound notification frame produces exactly one ack entry whose
channelID and version are the frame's, with code OTHER_FAIL (102) for an
unknown channel, a thrown valid ack code as thrown, OTHER_FAIL for any other
thrown error, and SUCCESS (100) on normal return. -/
theorem notificationHandle_one_ack (subKnown : Bool)
    (outcome : HandleNotificationOutcome) (msg : ServerNotification) :
    notificationHandle subKnown outcome msg =
      [⟨msg.channelID, msg.version, specAckCode subKnown outcome⟩] := by
  cases subKnown with
  | false => rfl
  | true =>
      cases outcome with
      | success => rfl
      | throwOther => rfl
      | throwNum n =>
          by_cases h : n = 100 ∨ n = 101 ∨ n = 102
          · simp [notificationHandle, specAckCode, (find?_ackCodeValues n).2 h, h]
          · have hfind : ¬ ((clientAckCodeValues.find? (fun v => v == n)).isSome = true) :=
              fun hs => h ((find?_ackCodeValues n).1 hs)
            simp [notificationHandle, specAckCode, hfind, h, ClientAckCodes.OTHER_FAIL]

/-- C6: at an ack-timer tick, nothing is sent when the queue is empty or no
socket exists (and the state is unchanged); otherwise exactly one ack frame
is sent carrying the queued entries in enqueue order and the queue is empty
afterwards; consequently every emitted batch is non-empty and is emitted only
while a socket exists. -/
theorem sendAck_tick (st : MediatorState) :
    ((st.ackQueue = [] ∨ st.websocketPresent = false) →
        (sendAck st).2 = none ∧ (sendAck st).1 = st) ∧
    (st.ackQueue ≠ [] → st.websocketPresent = true →
        (sendAck st).2 = some ⟨st.ackQueue⟩ ∧ (sendAck st).1.ackQueue = []) ∧
    (∀ f, (sendAck st).2 = some f →
        f.updates ≠ [] ∧ st.websocketPresent = true) := by
  obtain ⟨q, w⟩ := st
  refine ⟨?_, ?_, ?_⟩
  · rintro (hq | hw)
    · subst hq; simp [sendAck]
    · subst hw; simp [sendAck]
  · intro hq hw
    subst hw
    simp [sendAck, List.isEmpty_iff, hq]
  · intro f hf
    cases q with
    | nil => simp [sendAck] at hf
    | cons a q' =>
        cases w with
        | false => simp [sendAck] at hf
        | true =>
            simp [sendAck] at hf
            subst hf
            exact ⟨by simp, rfl⟩

/-- Witness for sendAck_tick at a one-entry queue with an open socket. -/
theorem sendAck_tick_witness :
    (sendAck ⟨[⟨"c", "v", 100⟩], true⟩).2 = some ⟨[⟨"c", "v", 100⟩]⟩ ∧
    (sendAck ⟨[⟨"c", "v", 100⟩], true⟩).1.ackQueue = [] :=
  (sendAck_tick ⟨[⟨"c", "v", 100⟩], true⟩).2.1 (by simp) rfl

/-- C9 counterexample: destroying the manager from a state where the ack
timer is scheduled leaves the timer scheduled, because PushManager.destroy
never invokes MessageMediator.destroy; the claim that the ack timer is
stopped after destroy is false. -/
theorem destroy_leaves_timer_running :
    (PushManager.destroy ⟨true, true, true⟩).ackTimerActive = true := rfl

/-- C9 amended: PushManager.destroy clears the reconnect flag and closes the
socket but leaves the mediator's ack timer untouched (MessageMediator.destroy,
which alone stops it, is never called); a subsequent tick with no socket
emits no ack frame. -/
theorem destroy_flags (st : SystemState) :
    (PushManager.destroy st).reconnect = false ∧
    (PushManager.destroy st).websocketPresent = false ∧
    (PushManager.destroy st).ackTimerActive = st.ackTimerActive ∧
    (MessageMediator.destroy st).ackTimerActive = false ∧
    (∀ q : List ClientMessageAck, (sendAck ⟨q, false⟩).2 = none) := by
  refine ⟨rfl, rfl, rfl, rfl, ?_⟩
  intro q
  cases q <;> simp [sendAck]

/-- C10: an inbound unregister whose status is neither 200 nor 500 is handled
exactly like status 200: the internal unregistered event is dispatched for
the channel and the subscription is removed from the registry. -/
theorem unregisterHandle_other_status (msg : ServerUnregister)
    (q : Option Int) (h500 : msg.status ≠ 500) :
    unregisterHandle msg q = unregisterHandle ⟨msg.channelID, 200⟩ q ∧
    unregisterHandle msg q =
      [.dispatchUnregistered msg.channelID, .removeSubscription msg.channelID] := by
  constructor <;> simp [unregisterHandle, h500]

/-- Witness for unregisterHandle_other_status at status 404. -/
theorem unregisterHandle_other_status_witness :
    unregisterHandle ⟨"chan-1", 404⟩ none = unregisterHandle ⟨"chan-1", 200⟩ none ∧
    unregisterHandle ⟨"chan-1", 404⟩ none =
      [.dispatchUnregistered "chan-1", .removeSubscription "chan-1"] :=
  unregisterHandle_other_status ⟨"chan-1", 404⟩ none (by decide)

/-- HelloHandler.handle can never take its re-initialisation branch: it awaits
completeHello first, which overwrites the cached uaid with the frame's uaid,
so the subsequent comparison always sees them equal. -/
lemma helloHandle_eq_completeHello (st : ManagerState) (u : String) :
    helloHandle st u = completeHello st u := by
  unfold helloHandle
  rw [if_neg]
  rintro ⟨-, hne⟩
  apply hne
  unfold completeHello
  by_cases h : st.uaid = some u
  · simp [h]
  · simp [h]

/-- C1: on a hello whose uaid differs from the non-empty persisted uaid, the
handler does not invoke reInitAllSubscriptions and no pushsubscriptionchange
is dispatched, because completeHello already replaced the prior uaid before
the comparison; the one existing subscription produces zero events instead of
one. -/
theorem helloHandle_no_reinit_on_rotation :
    helloHandle ⟨some "old-uaid", [⟨"chan-1", ⟨true, "key-1"⟩⟩], false, 0⟩ "new-uaid" =
      ⟨some "new-uaid", [⟨"chan-1", ⟨true, "key-1"⟩⟩], false, 0⟩ ∧
    (helloHandle ⟨some "old-uaid", [⟨"chan-1", ⟨true, "key-1"⟩⟩], false, 0⟩
        "new-uaid").reInitInvoked = false ∧
    (helloHandle ⟨some "old-uaid", [⟨"chan-1", ⟨true, "key-1"⟩⟩], false, 0⟩
        "new-uaid").pushSubChangeEvents = 0 := by
  refine ⟨?_, ?_, ?_⟩ <;>
    rw [helloHandle_eq_completeHello] <;> decide

/-- C5: with the manager initialized and a socket open, subscribe throws on
falsy options or a falsy applicationServerKey before doing anything else;
when a subscription with the requested key is already in the registry it is
returned and no register frame is sent; a register frame is only sent when no
subscription with that key exists. -/
theorem subscribe_requires_key_and_dedups (subs : List Subscription) :
    subscribe subs true none = .errInvalidOptions ∧
    (∀ u : Bool, subscribe subs true (some ⟨u, ""⟩) = .errInvalidOptions) ∧
    (∀ opts sub, opts.applicationServerKey ≠ "" →
        getByApplicationServerKey subs opts.applicationServerKey = some sub →
        subscribe subs true (some opts) = .existing sub) ∧
    (∀ opts key, subscribe subs true (some opts) = .sendRegister key →
        getByApplicationServerKey subs opts.applicationServerKey = none) := by
  refine ⟨rfl, fun u => rfl, ?_, ?_⟩
  · intro opts sub hkey hfound
    simp [subscribe, hkey, hfound]
  · intro opts key hsend
    by_cases hkey : opts.applicationServerKey = ""
    · simp [subscribe, hkey] at hsend
    · cases hfound : getByApplicationServerKey subs opts.applicationServerKey with
      | none => rfl
      | some ex => simp [subscribe, hkey, hfound] at hsend

/-- Witness for subscribe_requires_key_and_dedups: a registry holding a
subscription for key k returns it unchanged on a duplicate subscribe. -/
theorem subscribe_requires_key_and_dedups_witness :
    subscribe [⟨"chan-1", ⟨true, "k"⟩⟩] true (some ⟨true, "k"⟩) =
      .existing ⟨"chan-1", ⟨true, "k"⟩⟩ :=
  (subscribe_requires_key_and_dedups [⟨"chan-1", ⟨true, "k"⟩⟩]).2.2.1
    ⟨true, "k"⟩ ⟨"chan-1", ⟨true, "k"⟩⟩ (by decide) rfl

/-- Scanning from the front of an all-zero prefix, dropWhile stops at the
first non-zero byte. -/
lemma dropWhile_zeros_append (zeros : List Nat) (b : Nat) (t : List Nat)
    (hz : ∀ z ∈ zeros, z = 0) (hb : b ≠ 0) :
    (zeros ++ b :: t).dropWhile (fun v => v == 0) = b :: t := by
  induction zeros with
  | nil => simp [List.dropWhile_cons, hb]
  | cons z zs ih =>
      have hz0 : z = 0 := hz z (List.mem_cons_self z zs)
      subst hz0
      simpa [List.dropWhile_cons] using
        ih (fun w hw => hz w (List.mem_cons_of_mem _ hw))

/-- C3: removePadding fails on an all-zero block; otherwise, writing the
input as a prefix, a non-zero byte, and trailing zeros, it fails unless that
byte is the expected delimiter (2 when is_last_record, else 1) and returns
exactly the prefix before it. -/
theorem removePadding_spec (data : List Nat) (isLast : Bool) :
    ((∀ x ∈ data, x = 0) → removePadding data isLast = none) ∧
    (∀ pre b zeros, data = pre ++ b :: zeros → b ≠ 0 → (∀ z ∈ zeros, z = 0) →
      removePadding data isLast =
        if b = (if isLast then 2 else 1) then some pre else none) := by
  constructor
  · intro h
    have hall : data.all (fun v => v == 0) = true := by
      rw [List.all_eq_true]
      intro x hx
      simpa using h x hx
    simp [removePadding, hall]
  · rintro pre b zeros rfl hb hz
    have hnotall : ¬ ((pre ++ b :: zeros).all (fun v => v == 0) = true) := by
      rw [List.all_eq_true]
      intro hcontra
      exact hb (by simpa using hcontra b (by simp))
    have hdrop : (zeros.reverse ++ b :: pre.reverse).dropWhile (fun v => v == 0) =
        b :: pre.reverse :=
      dropWhile_zeros_append _ _ _ (fun z hzz => hz z (List.mem_reverse.mp hzz)) hb
    rw [removePadding, if_neg hnotall]
    simp only [List.reverse_append, List.reverse_cons, List.append_assoc,
      List.singleton_append, hdrop]
    by_cases hbe : b = (if isLast then 2 else 1)
    · simp [hbe]
    · simp [hbe]

/-- Witness for removePadding_spec: a payload with delimiter 2 and one
trailing zero recovers the payload, and an all-zero block fails. -/
theorem removePadding_spec_witness :
    removePadding [104, 105, 2, 0] true = some [104, 105] ∧
    removePadding [0, 0] true = none := by
  constructor
  · have h := (removePadding_spec [104, 105, 2, 0] true).2 [104, 105] 2 [0]
      rfl (by decide) (by decide)
    simpa using h
  · exact (removePadding_spec [0, 0] true).1 (by decide)

/-- C4 counterexample: a 21-byte record whose keyid-length byte is 3 is
accepted by splitContent (no throw), with an empty, silently truncated
sender public key, contradicting the claim that the parse fails whenever the
byte at offset 20 is not 65. -/
theorem splitContent_accepts_bad_idlen :
    (List.replicate 20 0 ++ [3]).getD 20 0 = 3 ∧ (3 : Nat) ≠ 65 ∧
    splitContent (List.replicate 20 0 ++ [3]) ≠ none ∧
    (splitContent (List.replicate 20 0 ++ [3])).map
        (fun r => r.serverPublicKey.length) = some 0 := by decide

/-- C4 amended: the header parse used by webPushDecryptPrep throws exactly
when fewer than 21 bytes are present (the keyid-length read is then out of
bounds); in every other case it returns, without validating that the
keyid-length byte is 65, a salt of the first 16 bytes, the big-endian record
size, a sender public key silently truncated to what remains after byte 21,
and the remainder as ciphertext. -/
theorem splitContent_amended (content : List Nat) :
    (splitContent content = none ↔ content.length < 21) ∧
    (∀ r, splitContent content = some r →
      r.salt = content.take 16 ∧
      r.recordSize = beU32 ((content.drop 16).take 4) ∧
      r.serverPublicKey = (content.drop 21).take (content.getD 20 0) ∧
      r.serverPublicKey.length = min (content.getD 20 0) (content.length - 21) ∧
      r.encryptedContent = content.drop (21 + content.getD 20 0)) := by
  by_cases h : content.length < 21
  · refine ⟨by simp [splitContent, h], ?_⟩
    intro r hr
    simp [splitContent, h] at hr
  · refine ⟨by simp [splitContent, h], ?_⟩
    intro r hr
    simp only [splitContent, h, if_false] at hr
    obtain rfl : _ = r := Option.some.inj hr
    refine ⟨rfl, rfl, rfl, ?_, rfl⟩
    simp [List.length_take, List.length_drop]

/-- Witness for splitContent_amended: the empty record is rejected. -/
theorem splitContent_amended_witness : splitContent [] = none :=
  (splitContent_amended []).1.mpr (by decide)

/-- C7 counterexample: two storage instances over the same backend with the
distinct namespaces "a" and "a:b" compute the same backend key for the keys
"b:c" and "c" respectively, so their reads and writes collide. -/
theorem getKey_collision :
    ("a" : String) ≠ "a:b" ∧
    Storage.getKey "a" "b:c" = Storage.getKey "a:b" "c" := by
  refine ⟨by decide, ?_⟩
  rfl

/-- A list splits uniquely at a colon none of whose left part contains. -/
lemma colon_split_unique (xs : List Char) :
    ∀ ys us vs : List Char, ':' ∉ xs → ':' ∉ ys →
      xs ++ ':' :: us = ys ++ ':' :: vs → xs = ys ∧ us = vs := by
  induction xs with
  | nil =>
      intro ys us vs _ hy h
      cases ys with
      | nil => exact ⟨rfl, by simpa using h⟩
      | cons y ys' =>
          simp only [List.nil_append, List.cons_append, List.cons.injEq] at h
          obtain ⟨h1, -⟩ := h
          subst h1
          exact absurd (List.mem_cons_self _ _) hy
  | cons x xs' ih =>
      intro ys us vs hx hy h
      cases ys with
      | nil =>
          simp only [List.nil_append, List.cons_append, List.cons.injEq] at h
          obtain ⟨h1, -⟩ := h
          subst h1
          exact absurd (List.mem_cons_self _ _) hx
      | cons y ys' =>
          simp only [List.cons_append, List.cons.injEq] at h
          obtain ⟨hxy, hrest⟩ := h
          obtain ⟨he, hu⟩ := ih ys' us vs
            (fun hm => hx (List.mem_cons_of_mem _ hm))
            (fun hm => hy (List.mem_cons_of_mem _ hm)) hrest
          exact ⟨by rw [hxy, he], hu⟩

/-- C7 amended: storage instances with distinct namespaces compute distinct
backend keys as long as the keys themselves contain no colon; the collision
above is only possible through colon-bearing keys. -/
theorem getKey_no_collision_colon_free (ns1 ns2 k1 k2 : String)
    (hns : ns1 ≠ ns2) (hk1 : ':' ∉ k1.toList) (hk2 : ':' ∉ k2.toList) :
    Storage.getKey ns1 k1 ≠ Storage.getKey ns2 k2 := by
  intro h
  unfold Storage.getKey at h
  by_cases h1 : ns1 = ""
  · by_cases h2 : ns2 = ""
    · exact hns (h1.trans h2.symm)
    · rw [if_pos h1, if_neg h2] at h
      apply hk1
      rw [h]
      show ':' ∈ (ns2 ++ ":" ++ k2).data
      simp [String.data_append]
  · by_cases h2 : ns2 = ""
    · rw [if_neg h1, if_pos h2] at h
      apply hk2
      rw [← h]
      show ':' ∈ (ns1 ++ ":" ++ k1).data
      simp [String.data_append]
    · rw [if_neg h1, if_neg h2] at h
      have hd : ns1.data ++ ':' :: k1.data = ns2.data ++ ':' :: k2.data := by
        have := congrArg String.data h
        simpa [String.data_append] using this
      have hrev : k1.data.reverse ++ ':' :: ns1.data.reverse =
          k2.data.reverse ++ ':' :: ns2.data.reverse := by
        have := congrArg List.reverse hd
        simpa [List.reverse_append] using this
      obtain ⟨-, hns'⟩ := colon_split_unique k1.data.reverse k2.data.reverse
        ns1.data.reverse ns2.data.reverse
        (fun hm => hk1 (List.mem_reverse.mp hm))
        (fun hm => hk2 (List.mem_reverse.mp hm)) hrev
      exact hns (String.ext (List.reverse_injective hns'))

/-- Witness for getKey_no_collision_colon_free: distinct namespaces with
colon-free keys give distinct backend keys. -/
theorem getKey_no_collision_colon_free_witness :
    Storage.getKey "a" "x" ≠ Storage.getKey "b" "x" :=
  getKey_no_collision_colon_free "a" "b" "x" "x" (by decide) (by decide) (by decide)

/-- C8 counterexample: with the first registered listener throwing and a
second registered after it, dispatchEvent invokes only the first; the later
listener is skipped and the exception escapes the dispatch loop un-logged,
contradicting the claim that every later listener still runs. -/
theorem dispatchEvent_stops_after_throw :
    (dispatchEvent [.throws, .normal]).invoked = [0] ∧
    1 ∉ (dispatchEvent [.throws, .normal]).invoked ∧
    (dispatchEvent [.throws, .normal]).escaped = some 0 := by decide

/-- Dispatch over listeners that all return normally invokes every one, in
order, with no escaping exception. -/
lemma dispatchRun_all_normal (l : List ListenerBehavior) :
    ∀ i : Nat, (∀ b ∈ l, b = .normal) →
      dispatchRun i l = ⟨List.range' i l.length, none⟩ := by
  induction l with
  | nil => intro i _; rfl
  | cons b l' ih =>
      intro i h
      have hb : b = .normal := h b (List.mem_cons_self b l')
      subst hb
      rw [dispatchRun, ih (i + 1) (fun c hc => h c (List.mem_cons_of_mem _ hc))]
      simp [List.range'_succ]

/-- Dispatch over a normal prefix followed by a throwing listener invokes
exactly the prefix and the thrower, in order, and the exception escapes. -/
lemma dispatchRun_throw (pre : List ListenerBehavior)
    (post : List ListenerBehavior) :
    ∀ i : Nat, (∀ b ∈ pre, b = .normal) →
      dispatchRun i (pre ++ .throws :: post) =
        ⟨List.range' i (pre.length + 1), some (i + pre.length)⟩ := by
  induction pre with
  | nil => intro i _; simp [dispatchRun, List.range'_succ]
  | cons b pre' ih =>
      intro i h
      have hb : b = .normal := h b (List.mem_cons_self b pre')
      subst hb
      rw [List.cons_append, dispatchRun,
        ih (i + 1) (fun c hc => h c (List.mem_cons_of_mem _ hc))]
      simp [List.range'_succ]
      omega

/-- C8 amended: dispatchEvent runs listeners synchronously in registration
order; when every listener returns normally all of them are invoked, and
when a listener throws, the listeners registered before it and the thrower
itself are invoked, the later-registered listeners are not, and the
exception escapes the dispatch (nothing catches or logs it). -/
theorem dispatchEvent_order_and_propagation
    (l pre post : List ListenerBehavior) :
    ((∀ b ∈ l, b = .normal) →
        dispatchEvent l = ⟨List.range' 0 l.length, none⟩) ∧
    ((∀ b ∈ pre, b = .normal) →
        dispatchEvent (pre ++ .throws :: post) =
          ⟨List.range' 0 (pre.length + 1), some pre.length⟩) := by
  constructor
  · intro h
    exact dispatchRun_all_normal l 0 h
  · intro h
    simpa using dispatchRun_throw pre post 0 h

/-- Witness for dispatchEvent_order_and_propagation: two normal listeners
both run; a normal listener followed by a thrower invokes indices 0 and 1
and the exception escapes. -/
theorem dispatchEvent_order_and_propagation_witness :
    dispatchEvent [.normal, .normal] = ⟨List.range' 0 2, none⟩ ∧
    dispatchEvent [.normal, .throws, .normal] = ⟨List.range' 0 2, some 1⟩ := by
  constructor
  · exact (dispatchEvent_order_and_propagation [.normal, .normal] [] []).1
      (by decide)
  · have h := (dispatchEvent_order_and_propagation [] [.normal] [.normal]).2
      (by decide)
    simpa using h

end Autopush
